import Mathlib

/-!
Shallow embedding of `src/app.py`: a FastAPI service that loads a CSV
dataset into a pandas DataFrame, filters it sequentially by the optional
query parameters `year`, `country` and `market` (matched against the
columns `year`, `country` and `mkt_name`), replaces null cells by the
empty string, and serializes the surviving rows as JSON records.  Both
`fetch_data` and the endpoint `fetch_data_api` wrap their bodies in a
catch-all exception handler that converts any failure into an error
dictionary.

The remote CSV fetch (`pd.read_csv(url)`) is external input; it is
modelled as a parameter `load : Except String Dataset`, an `Except.error`
carrying the textual description of a load failure.
-/

/-- A cell of the in-memory table: a missing value (pandas NaN), a string,
or a number.  The `year` column holds numbers, `country` and `mkt_name`
hold strings. -/
inductive Cell where
  | null : Cell
  | str : String → Cell
  | num : Int → Cell
deriving DecidableEq

/-- The in-memory table parsed from the CSV: named columns and rows of
cells, each row listing its cells in column order. -/
structure Dataset where
  cols : List String
  rows : List (List Cell)
deriving DecidableEq

/-- Pandas elementwise equality as used by `df[df[col] == v]`: NaN compares
unequal to everything (including the empty string), numbers compare
numerically, strings compare by string equality, and a number never equals
a string. -/
def cellMatches : Cell → Cell → Bool
  | Cell.num a, Cell.num b => a == b
  | Cell.str a, Cell.str b => a == b
  | _, _ => false

/-- Cell of a row at a column position; out-of-range reads as missing. -/
def cellAt (r : List Cell) (i : Nat) : Cell := r.getD i Cell.null

/-- A single-quote character, written via its code point. -/
def squote : String := String.singleton (Char.ofNat 39)

/-- The message of the `KeyError` raised by `df[col]` when `col` is not a
column of the DataFrame: Python renders `str(KeyError(col))` as the column
name wrapped in single quotes. -/
def keyErrorMsg (col : String) : String := squote ++ col ++ squote

/-- Position of a column name in the column list, if present. -/
def colIdx (cols : List String) (col : String) : Option Nat :=
  cols.findIdx? (fun x => x == col)

/-- Whether the dataset has a column of the given name. -/
def hasColumn (cols : List String) (col : String) : Bool :=
  (colIdx cols col).isSome

/-- The filtering step `df = df[df[col] == v]`: raises `KeyError` when the
column is absent, otherwise keeps (in order) the rows whose cell in that
column equals `v` under pandas equality. -/
def filterBy (d : Dataset) (col : String) (v : Cell) : Except String Dataset :=
  match colIdx d.cols col with
  | none => Except.error (keyErrorMsg col)
  | some i => Except.ok ⟨d.cols, d.rows.filter (fun r => cellMatches (cellAt r i) v)⟩

/-- Line 15-17 of `app.py`: `if year is not None: df = df[df['year'] == year]`. -/
def filterYear (d : Dataset) (year : Option Int) : Except String Dataset :=
  match year with
  | some y => filterBy d "year" (Cell.num y)
  | none => Except.ok d

/-- Line 18-20 of `app.py`: `if country is not None: df = df[df['country'] == country]`. -/
def filterCountry (d : Dataset) (country : Option String) : Except String Dataset :=
  match country with
  | some c => filterBy d "country" (Cell.str c)
  | none => Except.ok d

/-- Line 21-23 of `app.py`: `if market is not None: df = df[df['mkt_name'] == market]`. -/
def filterMarket (d : Dataset) (market : Option String) : Except String Dataset :=
  match market with
  | some m => filterBy d "mkt_name" (Cell.str m)
  | none => Except.ok d

/-- `fillna('')` on one cell: a missing value becomes the empty string,
every other cell is unchanged. -/
def fillNullCell : Cell → Cell
  | Cell.null => Cell.str ""
  | c => c

/-- Line 24 of `app.py`: `df.fillna('')`, applied to every cell of every
row, all columns alike. -/
def fillna (d : Dataset) : Dataset :=
  ⟨d.cols, d.rows.map (fun r => r.map fillNullCell)⟩

/-- `DataFrame.empty`: true when either axis has length zero. -/
def Dataset.isEmptyDf (d : Dataset) : Bool := d.rows.isEmpty || d.cols.isEmpty

/-- `df.to_json(orient='records')`: one flat record per row, in row order,
with the column names as keys. -/
def to_json_records (d : Dataset) : List (List (String × Cell)) :=
  d.rows.map (fun r => d.cols.zip r)

/-- The message of the `ValueError` raised when the filtered frame is empty. -/
def noDataMsg : String := "No data found for the specified filters."

/-- The body of the `try` block of `fetch_data` (lines 13-32 of `app.py`):
load the dataset, apply the three optional filters in the fixed order
year, country, market, fill nulls with the empty string, raise if the
result is empty, otherwise serialize to JSON records.  An `Except.error`
is a Python exception propagating out of the statement that raised it. -/
def tryBody (load : Except String Dataset) (year : Option Int)
    (country market : Option String) : Except String (List (List (String × Cell))) :=
  match load with
  | Except.error e => Except.error e
  | Except.ok df =>
    match filterYear df year with
    | Except.error e => Except.error e
    | Except.ok df =>
      match filterCountry df country with
      | Except.error e => Except.error e
      | Except.ok df =>
        match filterMarket df market with
        | Except.error e => Except.error e
        | Except.ok df =>
          let df_filter := fillna df
          if df_filter.isEmptyDf then
            Except.error noDataMsg
          else
            Except.ok (to_json_records df_filter)

/-- What `fetch_data` evaluates to: the serialized JSON records, the error
dictionary of the `except` clause, or Python `None` (which the function
never actually produces; the constructor exists so that the endpoint's
`is None` check can be modelled). -/
inductive FetchOutcome where
  | json : List (List (String × Cell)) → FetchOutcome
  | errorDict : String → FetchOutcome
  | none : FetchOutcome
deriving DecidableEq

/-- `fetch_data` (lines 9-34 of `app.py`): run the try block; any exception
is caught by `except Exception as e: return {'error': str(e)}`. -/
def fetch_data (load : Except String Dataset) (year : Option Int)
    (country market : Option String) : FetchOutcome :=
  match tryBody load year country market with
  | Except.ok recs => FetchOutcome.json recs
  | Except.error e => FetchOutcome.errorDict e

/-- What the endpoint returns: either the value of `fetch_data` on the
default success status, or an error dictionary paired with status 400
(the endpoint's own `except` clause). -/
inductive ApiResponse where
  | success : FetchOutcome → ApiResponse
  | badRequest : String → ApiResponse
deriving DecidableEq

/-- `fetch_data_api` (lines 36-49 of `app.py`): call `fetch_data`; if it
returned `None`, raise `ValueError`, which the surrounding `except` turns
into `({'error': str(e)}, 400)`; otherwise return the value as the
response. -/
def fetch_data_api (load : Except String Dataset) (year : Option Int)
    (country market : Option String) : ApiResponse :=
  match fetch_data load year country market with
  | FetchOutcome.none => ApiResponse.badRequest noDataMsg
  | r => ApiResponse.success r

/-! Specification-side vocabulary: the combined match predicate and the
surviving-row set, used to state what the sequential filter chain
computes. -/

/-- The cell of a row in the named column, missing when the column is
absent. -/
def colCell (cols : List String) (r : List Cell) (col : String) : Cell :=
  match colIdx cols col with
  | some i => cellAt r i
  | none => Cell.null

/-- The year criterion: when a year parameter is provided, the row's
`year` cell must equal it numerically; otherwise no constraint. -/
def yearPred (cols : List String) (year : Option Int) (r : List Cell) : Bool :=
  match year with
  | some y => cellMatches (colCell cols r "year") (Cell.num y)
  | none => true

/-- The country criterion: when a country parameter is provided, the row's
`country` cell must equal it as a string; otherwise no constraint. -/
def countryPred (cols : List String) (country : Option String) (r : List Cell) : Bool :=
  match country with
  | some c => cellMatches (colCell cols r "country") (Cell.str c)
  | none => true

/-- The market criterion: when a market parameter is provided, the row's
`mkt_name` cell must equal it as a string; otherwise no constraint. -/
def marketPred (cols : List String) (market : Option String) (r : List Cell) : Bool :=
  match market with
  | some m => cellMatches (colCell cols r "mkt_name") (Cell.str m)
  | none => true

/-- Conjunction of the three criteria: a row survives the whole filter
chain exactly when it satisfies every provided criterion. -/
def rowMatches (cols : List String) (year : Option Int)
    (country market : Option String) (r : List Cell) : Bool :=
  (yearPred cols year r && countryPred cols country r) && marketPred cols market r

/-- The Filtered Result before null replacement: the dataset rows matching
all provided criteria, in the dataset's original order. -/
def survivors (d : Dataset) (year : Option Int)
    (country market : Option String) : List (List Cell) :=
  d.rows.filter (rowMatches d.cols year country market)

/-- Serialization of one surviving row: nulls replaced by the empty string
and cells keyed by the column names. -/
def serializeRow (d : Dataset) (r : List Cell) : List (String × Cell) :=
  d.cols.zip (r.map fillNullCell)

/-- Every provided filter parameter names a column the dataset has (true
of the real CSV, whose columns include `year`, `country`, `mkt_name`). -/
def providedColsPresent (cols : List String) (year : Option Int)
    (country market : Option String) : Bool :=
  (year.isNone || hasColumn cols "year")
    && ((country.isNone || hasColumn cols "country")
      && (market.isNone || hasColumn cols "mkt_name"))

/-! Bridging lemmas: what each filter step computes, and what the whole
try block computes when every provided filter column exists. -/

lemma isEmpty_map {α β : Type} (f : α → β) (l : List α) :
    (l.map f).isEmpty = l.isEmpty := by
  cases l <;> rfl

lemma colCell_of_idx (cols : List String) (r : List Cell) (col : String) (i : Nat)
    (hi : colIdx cols col = some i) : colCell cols r col = cellAt r i := by
  simp [colCell, hi]

lemma filterYear_ok (d : Dataset) (y : Option Int)
    (h : (y.isNone || hasColumn d.cols "year") = true) :
    filterYear d y = Except.ok ⟨d.cols, d.rows.filter (yearPred d.cols y)⟩ := by
  cases y with
  | none =>
    have hf : d.rows.filter (yearPred d.cols none) = d.rows := by
      have he : yearPred d.cols none = fun _ => true := rfl
      rw [he]; simp
    show Except.ok d = Except.ok (⟨d.cols, d.rows.filter (yearPred d.cols none)⟩ : Dataset)
    rw [hf]
  | some yv =>
    simp only [Option.isNone_some, Bool.false_or, hasColumn, Option.isSome_iff_exists] at h
    obtain ⟨i, hi⟩ := h
    simp only [filterYear, filterBy, hi, Except.ok.injEq, Dataset.mk.injEq, true_and]
    exact List.filter_congr (fun r _ => by simp [yearPred, colCell_of_idx _ _ _ _ hi])

lemma filterCountry_ok (d : Dataset) (c : Option String)
    (h : (c.isNone || hasColumn d.cols "country") = true) :
    filterCountry d c = Except.ok ⟨d.cols, d.rows.filter (countryPred d.cols c)⟩ := by
  cases c with
  | none =>
    have hf : d.rows.filter (countryPred d.cols none) = d.rows := by
      have he : countryPred d.cols none = fun _ => true := rfl
      rw [he]; simp
    show Except.ok d = Except.ok (⟨d.cols, d.rows.filter (countryPred d.cols none)⟩ : Dataset)
    rw [hf]
  | some cv =>
    simp only [Option.isNone_some, Bool.false_or, hasColumn, Option.isSome_iff_exists] at h
    obtain ⟨i, hi⟩ := h
    simp only [filterCountry, filterBy, hi, Except.ok.injEq, Dataset.mk.injEq, true_and]
    exact List.filter_congr (fun r _ => by simp [countryPred, colCell_of_idx _ _ _ _ hi])

lemma filterMarket_ok (d : Dataset) (m : Option String)
    (h : (m.isNone || hasColumn d.cols "mkt_name") = true) :
    filterMarket d m = Except.ok ⟨d.cols, d.rows.filter (marketPred d.cols m)⟩ := by
  cases m with
  | none =>
    have hf : d.rows.filter (marketPred d.cols none) = d.rows := by
      have he : marketPred d.cols none = fun _ => true := rfl
      rw [he]; simp
    show Except.ok d = Except.ok (⟨d.cols, d.rows.filter (marketPred d.cols none)⟩ : Dataset)
    rw [hf]
  | some mv =>
    simp only [Option.isNone_some, Bool.false_or, hasColumn, Option.isSome_iff_exists] at h
    obtain ⟨i, hi⟩ := h
    simp only [filterMarket, filterBy, hi, Except.ok.injEq, Dataset.mk.injEq, true_and]
    exact List.filter_congr (fun r _ => by simp [marketPred, colCell_of_idx _ _ _ _ hi])

lemma tryBody_ok_eq (d : Dataset) (y : Option Int) (c m : Option String)
    (h : providedColsPresent d.cols y c m = true) :
    tryBody (Except.ok d) y c m =
      if ((survivors d y c m).isEmpty || d.cols.isEmpty) = true then
        Except.error noDataMsg
      else
        Except.ok ((survivors d y c m).map (serializeRow d)) := by
  have hsplit : (y.isNone || hasColumn d.cols "year") = true ∧
      ((c.isNone || hasColumn d.cols "country") = true ∧
        (m.isNone || hasColumn d.cols "mkt_name") = true) := by
    simpa only [providedColsPresent, Bool.and_eq_true] using h
  obtain ⟨hy, hc, hm⟩ := hsplit
  have h1 := filterYear_ok d y hy
  have h2 : filterCountry ⟨d.cols, d.rows.filter (yearPred d.cols y)⟩ c =
      Except.ok ⟨d.cols, (d.rows.filter (yearPred d.cols y)).filter (countryPred d.cols c)⟩ :=
    filterCountry_ok _ c hc
  have h3 : filterMarket
        ⟨d.cols, (d.rows.filter (yearPred d.cols y)).filter (countryPred d.cols c)⟩ m =
      Except.ok ⟨d.cols, ((d.rows.filter (yearPred d.cols y)).filter
        (countryPred d.cols c)).filter (marketPred d.cols m)⟩ :=
    filterMarket_ok _ m hm
  have hcomb :
      ((d.rows.filter (yearPred d.cols y)).filter (countryPred d.cols c)).filter
          (marketPred d.cols m) = survivors d y c m := by
    rw [List.filter_filter, List.filter_filter]
    refine List.filter_congr (fun r _ => ?_)
    show _ = rowMatches d.cols y c m r
    rw [rowMatches]
    cases yearPred d.cols y r <;> cases countryPred d.cols c r <;>
      cases marketPred d.cols m r <;> rfl
  simp only [tryBody, h1, h2, h3, hcomb, fillna, Dataset.isEmptyDf, to_json_records,
    isEmpty_map, List.map_map, serializeRow, Function.comp]
  rfl

lemma filterYear_err (d : Dataset) (y : Option Int)
    (h : (y.isNone || hasColumn d.cols "year") = false) :
    filterYear d y = Except.error (keyErrorMsg "year") := by
  cases y with
  | none => simp at h
  | some yv =>
    simp only [Option.isNone_some, Bool.false_or] at h
    have hidx : colIdx d.cols "year" = none := by
      cases hcase : colIdx d.cols "year" with
      | none => rfl
      | some i => rw [hasColumn, hcase] at h; simp at h
    simp [filterYear, filterBy, hidx]

lemma filterCountry_err (d : Dataset) (c : Option String)
    (h : (c.isNone || hasColumn d.cols "country") = false) :
    filterCountry d c = Except.error (keyErrorMsg "country") := by
  cases c with
  | none => simp at h
  | some cv =>
    simp only [Option.isNone_some, Bool.false_or] at h
    have hidx : colIdx d.cols "country" = none := by
      cases hcase : colIdx d.cols "country" with
      | none => rfl
      | some i => rw [hasColumn, hcase] at h; simp at h
    simp [filterCountry, filterBy, hidx]

lemma filterMarket_err (d : Dataset) (m : Option String)
    (h : (m.isNone || hasColumn d.cols "mkt_name") = false) :
    filterMarket d m = Except.error (keyErrorMsg "mkt_name") := by
  cases m with
  | none => simp at h
  | some mv =>
    simp only [Option.isNone_some, Bool.false_or] at h
    have hidx : colIdx d.cols "mkt_name" = none := by
      cases hcase : colIdx d.cols "mkt_name" with
      | none => rfl
      | some i => rw [hasColumn, hcase] at h; simp at h
    simp [filterMarket, filterBy, hidx]

lemma tryBody_missing (d : Dataset) (y : Option Int) (c m : Option String)
    (h : providedColsPresent d.cols y c m = false) :
    ∃ e, tryBody (Except.ok d) y c m = Except.error e := by
  by_cases hy : (y.isNone || hasColumn d.cols "year") = true
  · have h1 := filterYear_ok d y hy
    by_cases hc : (c.isNone || hasColumn d.cols "country") = true
    · have h2 : filterCountry ⟨d.cols, d.rows.filter (yearPred d.cols y)⟩ c =
          Except.ok ⟨d.cols, (d.rows.filter (yearPred d.cols y)).filter
            (countryPred d.cols c)⟩ :=
        filterCountry_ok _ c hc
      have hm : (m.isNone || hasColumn d.cols "mkt_name") = false := by
        simpa only [providedColsPresent, hy, hc, Bool.true_and] using h
      have h3 : filterMarket ⟨d.cols, (d.rows.filter (yearPred d.cols y)).filter
            (countryPred d.cols c)⟩ m = Except.error (keyErrorMsg "mkt_name") :=
        filterMarket_err _ m hm
      exact ⟨keyErrorMsg "mkt_name", by simp only [tryBody, h1, h2, h3]⟩
    · have hcf : (c.isNone || hasColumn d.cols "country") = false :=
        Bool.eq_false_iff.mpr hc
      have h2 : filterCountry ⟨d.cols, d.rows.filter (yearPred d.cols y)⟩ c =
          Except.error (keyErrorMsg "country") :=
        filterCountry_err _ c hcf
      exact ⟨keyErrorMsg "country", by simp only [tryBody, h1, h2]⟩
  · have hyf : (y.isNone || hasColumn d.cols "year") = false := Bool.eq_false_iff.mpr hy
    have h1 := filterYear_err d y hyf
    exact ⟨keyErrorMsg "year", by simp only [tryBody, h1]⟩

lemma fetch_data_json_iff (d : Dataset) (y : Option Int) (c m : Option String)
    (recs : List (List (String × Cell))) :
    fetch_data (Except.ok d) y c m = FetchOutcome.json recs ↔
      providedColsPresent d.cols y c m = true ∧ survivors d y c m ≠ [] ∧
        d.cols ≠ [] ∧ recs = (survivors d y c m).map (serializeRow d) := by
  constructor
  · intro hj
    by_cases h : providedColsPresent d.cols y c m = true
    · simp only [fetch_data, tryBody_ok_eq d y c m h] at hj
      by_cases he : ((survivors d y c m).isEmpty || d.cols.isEmpty) = true
      · rw [if_pos he] at hj
        simp at hj
      · rw [if_neg he] at hj
        simp only [FetchOutcome.json.injEq] at hj
        have he2 : (survivors d y c m).isEmpty = false ∧ d.cols.isEmpty = false := by
          simpa [Bool.or_eq_true] using he
        exact ⟨h, List.isEmpty_eq_false.mp he2.1, List.isEmpty_eq_false.mp he2.2, hj.symm⟩
    · have hf : providedColsPresent d.cols y c m = false := Bool.eq_false_iff.mpr h
      obtain ⟨e, he⟩ := tryBody_missing d y c m hf
      rw [fetch_data, he] at hj
      simp at hj
  · rintro ⟨h, hne, hcols, rfl⟩
    have hff : ((survivors d y c m).isEmpty || d.cols.isEmpty) = false := by
      simp [List.isEmpty_eq_false, hne, hcols]
    simp only [fetch_data, tryBody_ok_eq d y c m h, hff]
    simp

lemma fetch_data_ne_none (load : Except String Dataset) (y : Option Int)
    (c m : Option String) : fetch_data load y c m ≠ FetchOutcome.none := by
  cases htb : tryBody load y c m <;> simp [fetch_data, htb]

lemma fetch_data_api_success (load : Except String Dataset) (y : Option Int)
    (c m : Option String) :
    fetch_data_api load y c m = ApiResponse.success (fetch_data load y c m) := by
  rcases hf : fetch_data load y c m with recs | e
  · simp [fetch_data_api, hf]
  · simp [fetch_data_api, hf]
  · exact absurd hf (fetch_data_ne_none load y c m)

lemma cellMatches_eq_num {x : Cell} {b : Int} (h : cellMatches x (Cell.num b) = true) :
    x = Cell.num b := by
  cases x with
  | null => simp [cellMatches] at h
  | str s => simp [cellMatches] at h
  | num a => simp [cellMatches] at h; rw [h]

lemma cellMatches_eq_str {x : Cell} {s : String} (h : cellMatches x (Cell.str s) = true) :
    x = Cell.str s := by
  cases x with
  | null => simp [cellMatches] at h
  | str t => simp [cellMatches] at h; rw [h]
  | num a => simp [cellMatches] at h

/-- A concrete dataset used to witness the theorems on concrete inputs,
mirroring the spec's example rows. -/
def dsample : Dataset :=
  ⟨["year", "country", "mkt_name"],
   [[Cell.num 2020, Cell.str "USA", Cell.str "Retail"],
    [Cell.num 2021, Cell.str "USA", Cell.str "Retail"]]⟩

/-- A concrete dataset with null cells, for the null-replacement witnesses. -/
def dnull : Dataset :=
  ⟨["year", "country", "mkt_name", "note"],
   [[Cell.num 2020, Cell.str "USA", Cell.str "Retail", Cell.null],
    [Cell.num 2021, Cell.null, Cell.str "Retail", Cell.str "x"]]⟩

/-- C1: when every provided filter column exists and at least one row
matches, `fetch_data` returns exactly the dataset rows whose `year` cell
numerically equals the year parameter, whose `country` cell string-equals
the country parameter, and whose `mkt_name` cell string-equals the market
parameter (each only when provided) — i.e. the sequential year, country,
market filter chain computes the single conjunctive filter — serialized
one record per row in the dataset's original order. -/
theorem fetch_data_returns_exactly_matching_rows (d : Dataset) (y : Option Int)
    (c m : Option String)
    (hcols : providedColsPresent d.cols y c m = true)
    (hne : survivors d y c m ≠ [])
    (hcne : d.cols ≠ []) :
    fetch_data (Except.ok d) y c m =
      FetchOutcome.json ((survivors d y c m).map (serializeRow d)) :=
  (fetch_data_json_iff d y c m _).mpr ⟨hcols, hne, hcne, rfl⟩

theorem fetch_data_returns_exactly_matching_rows_witness :
    providedColsPresent dsample.cols (some 2020) none none = true
    ∧ survivors dsample (some 2020) none none ≠ []
    ∧ dsample.cols ≠ []
    ∧ fetch_data (Except.ok dsample) (some 2020) none none =
        FetchOutcome.json ((survivors dsample (some 2020) none none).map
          (serializeRow dsample)) :=
  ⟨by decide, by decide, by decide,
    fetch_data_returns_exactly_matching_rows dsample (some 2020) none none
      (by decide) (by decide) (by decide)⟩

/-- C2: every failure inside the load-filter-serialize pipeline is caught
and surfaced as the error dictionary whose message is exactly the
underlying error's description: a pipeline exception `e` yields precisely
`errorDict e`, a load failure propagates its own description, a missing
`year` column yields the `KeyError` text, and the result is always either
serialized records or an error dictionary — never an unhandled fault. -/
theorem fetch_data_failure_becomes_error_body (load : Except String Dataset)
    (y : Option Int) (c m : Option String) :
    (∀ e, tryBody load y c m = Except.error e ↔
      fetch_data load y c m = FetchOutcome.errorDict e)
    ∧ (∀ e, load = Except.error e →
        fetch_data load y c m = FetchOutcome.errorDict e)
    ∧ (∀ d yv, load = Except.ok d → y = some yv → hasColumn d.cols "year" = false →
        fetch_data load y c m = FetchOutcome.errorDict (keyErrorMsg "year"))
    ∧ ((∃ recs, fetch_data load y c m = FetchOutcome.json recs) ∨
        (∃ e, fetch_data load y c m = FetchOutcome.errorDict e)) := by
  refine ⟨fun e => ⟨fun h => by simp [fetch_data, h], fun h => ?_⟩, fun e he => ?_,
    fun d yv hld hy hcol => ?_, ?_⟩
  · rcases htb : tryBody load y c m with e2 | r
    · rw [fetch_data, htb] at h
      simp only [FetchOutcome.errorDict.injEq] at h
      rw [h]
    · rw [fetch_data, htb] at h
      simp at h
  · subst he
    simp [fetch_data, tryBody]
  · subst hld; subst hy
    have h1 : filterYear d (some yv) = Except.error (keyErrorMsg "year") :=
      filterYear_err d (some yv) (by simp [hcol])
    simp [fetch_data, tryBody, h1]
  · rcases htb : tryBody load y c m with e | r
    · exact Or.inr ⟨e, by simp [fetch_data, htb]⟩
    · exact Or.inl ⟨r, by simp [fetch_data, htb]⟩

theorem fetch_data_failure_becomes_error_body_witness :
    fetch_data (Except.error "connection refused") (some 2020) none none =
      FetchOutcome.errorDict "connection refused" :=
  (fetch_data_failure_becomes_error_body (Except.error "connection refused")
    (some 2020) none none).2.1 "connection refused" rfl

/-- C3: whenever the provided filter columns exist and zero rows match the
criteria, the response is the error body for "No data found for the
specified filters." — delivered by the endpoint on its success path — and
never an empty JSON array. -/
theorem fetch_data_empty_result_is_error_not_empty_array (d : Dataset)
    (y : Option Int) (c m : Option String)
    (hcols : providedColsPresent d.cols y c m = true)
    (hempty : survivors d y c m = []) :
    fetch_data (Except.ok d) y c m = FetchOutcome.errorDict noDataMsg
    ∧ fetch_data (Except.ok d) y c m ≠ FetchOutcome.json []
    ∧ fetch_data_api (Except.ok d) y c m =
        ApiResponse.success (FetchOutcome.errorDict noDataMsg) := by
  have hcond : ((survivors d y c m).isEmpty || d.cols.isEmpty) = true := by
    simp [hempty]
  have h1 : fetch_data (Except.ok d) y c m = FetchOutcome.errorDict noDataMsg := by
    simp [fetch_data, tryBody_ok_eq d y c m hcols, hcond]
  refine ⟨h1, by simp [h1], ?_⟩
  rw [fetch_data_api_success, h1]

theorem fetch_data_empty_result_is_error_not_empty_array_witness :
    providedColsPresent dsample.cols (some 2099) none none = true
    ∧ survivors dsample (some 2099) none none = []
    ∧ fetch_data (Except.ok dsample) (some 2099) none none =
        FetchOutcome.errorDict noDataMsg :=
  ⟨by decide, by decide,
    (fetch_data_empty_result_is_error_not_empty_array dsample (some 2099) none none
      (by decide) (by decide)).1⟩

/-- C4: on the success path the body is a JSON array with one flat record
per surviving row, in order; when the dataset's rows all have one cell per
column, every record's keys are exactly the dataset's column names and no
value is a null (originally-null cells having been filled); the endpoint
delivers exactly this body. -/
theorem fetch_data_success_is_array_of_flat_records (d : Dataset) (y : Option Int)
    (c m : Option String) (recs : List (List (String × Cell)))
    (hwf : ∀ r ∈ d.rows, r.length = d.cols.length)
    (hjson : fetch_data (Except.ok d) y c m = FetchOutcome.json recs) :
    recs = (survivors d y c m).map (serializeRow d)
    ∧ recs ≠ []
    ∧ (∀ rec ∈ recs, rec.map Prod.fst = d.cols ∧ ∀ p ∈ rec, p.2 ≠ Cell.null)
    ∧ fetch_data_api (Except.ok d) y c m =
        ApiResponse.success (FetchOutcome.json recs) := by
  obtain ⟨hc, hne, hcne, hrecs⟩ := (fetch_data_json_iff d y c m recs).mp hjson
  refine ⟨hrecs, ?_, ?_, ?_⟩
  · rw [hrecs]
    simpa using hne
  · intro rec hrec
    rw [hrecs] at hrec
    obtain ⟨r, hr, rfl⟩ := List.mem_map.mp hrec
    have hrd : r ∈ d.rows := List.mem_of_mem_filter hr
    constructor
    · show List.map Prod.fst (d.cols.zip (r.map fillNullCell)) = d.cols
      exact List.map_fst_zip _ _ (by rw [List.length_map, hwf r hrd])
    · intro p hp
      have hp2 : p ∈ d.cols.zip (r.map fillNullCell) := hp
      obtain ⟨a, b⟩ := p
      obtain ⟨cell, hcell, hb⟩ := List.mem_map.mp (List.of_mem_zip hp2).2
      show b ≠ Cell.null
      rw [← hb]
      cases cell <;> simp [fillNullCell]
  · rw [fetch_data_api_success, hjson]

theorem fetch_data_success_is_array_of_flat_records_witness :
    (survivors dsample none none none).map (serializeRow dsample) ≠ [] :=
  (fetch_data_success_is_array_of_flat_records dsample none none none
    ((survivors dsample none none none).map (serializeRow dsample))
    (by decide) (by decide)).2.1

/-- C5: with no filter parameter provided, a dataset with at least one row
(and at least one column, as any parsed CSV has) is returned whole: one
record per dataset row in order, with every null cell replaced by the
empty string. -/
theorem fetch_data_no_filters_returns_whole_dataset (d : Dataset)
    (hrows : d.rows ≠ []) (hcols : d.cols ≠ []) :
    fetch_data (Except.ok d) none none none =
      FetchOutcome.json (d.rows.map (fun r => d.cols.zip (r.map fillNullCell))) := by
  have hs : survivors d none none none = d.rows := by
    rw [survivors]
    have hrm : rowMatches d.cols none none none = fun _ => true := rfl
    rw [hrm]
    simp
  have hp : providedColsPresent d.cols none none none = true := rfl
  have h := (fetch_data_json_iff d none none none
    ((survivors d none none none).map (serializeRow d))).mpr
    ⟨hp, by rw [hs]; exact hrows, hcols, rfl⟩
  rw [h, hs]
  rfl

theorem fetch_data_no_filters_returns_whole_dataset_witness :
    fetch_data (Except.ok dnull) none none none =
      FetchOutcome.json (dnull.rows.map (fun r => dnull.cols.zip
        (r.map fillNullCell))) :=
  fetch_data_no_filters_returns_whole_dataset dnull (by decide) (by decide)

/-- C6: in every returned record every originally-null cell is the empty
string — `fillna` maps a null cell to the empty string and is applied to
every cell of every surviving row, all columns alike — so no record value
is null and (for well-formed rows) no key is omitted. -/
theorem fetch_data_nulls_become_empty_string_uniformly (d : Dataset)
    (y : Option Int) (c m : Option String) (recs : List (List (String × Cell)))
    (hwf : ∀ r ∈ d.rows, r.length = d.cols.length)
    (hjson : fetch_data (Except.ok d) y c m = FetchOutcome.json recs) :
    recs = (survivors d y c m).map (fun r => d.cols.zip (r.map fillNullCell))
    ∧ fillNullCell Cell.null = Cell.str ""
    ∧ (∀ rec ∈ recs, rec.length = d.cols.length ∧ ∀ p ∈ rec, p.2 ≠ Cell.null) := by
  obtain ⟨hc, hne, hcne, hrecs⟩ := (fetch_data_json_iff d y c m recs).mp hjson
  refine ⟨hrecs, rfl, ?_⟩
  intro rec hrec
  rw [hrecs] at hrec
  obtain ⟨r, hr, rfl⟩ := List.mem_map.mp hrec
  have hrd : r ∈ d.rows := List.mem_of_mem_filter hr
  constructor
  · show (d.cols.zip (r.map fillNullCell)).length = d.cols.length
    rw [List.length_zip, List.length_map, hwf r hrd, Nat.min_self]
  · intro p hp
    have hp2 : p ∈ d.cols.zip (r.map fillNullCell) := hp
    obtain ⟨a, b⟩ := p
    obtain ⟨cell, hcell, hb⟩ := List.mem_map.mp (List.of_mem_zip hp2).2
    show b ≠ Cell.null
    rw [← hb]
    cases cell <;> simp [fillNullCell]

theorem fetch_data_nulls_become_empty_string_uniformly_witness :
    fillNullCell Cell.null = Cell.str "" :=
  (fetch_data_nulls_become_empty_string_uniformly dnull none none none
    ((survivors dnull none none none).map (serializeRow dnull))
    (by decide) (by decide)).2.1

/-- C7: the handler is deterministic in the loaded dataset and the query
parameters: equal load results and equal parameters give identical
responses, both at the endpoint and for the inner `fetch_data` body. -/
theorem fetch_data_api_deterministic (load1 load2 : Except String Dataset)
    (y1 y2 : Option Int) (c1 c2 m1 m2 : Option String)
    (hl : load1 = load2) (hy : y1 = y2) (hc : c1 = c2) (hm : m1 = m2) :
    fetch_data_api load1 y1 c1 m1 = fetch_data_api load2 y2 c2 m2
    ∧ fetch_data load1 y1 c1 m1 = fetch_data load2 y2 c2 m2 := by
  subst hl; subst hy; subst hc; subst hm
  exact ⟨rfl, rfl⟩

theorem fetch_data_api_deterministic_witness :
    fetch_data_api (Except.ok dsample) (some 2020) (some "USA") none =
      fetch_data_api (Except.ok dsample) (some 2020) (some "USA") none :=
  (fetch_data_api_deterministic (Except.ok dsample) (Except.ok dsample)
    (some 2020) (some 2020) (some "USA") (some "USA") none none
    rfl rfl rfl rfl).1

/-- C8: the Filtered Result is a subset of the dataset's rows: the
surviving rows form a sublist of the dataset's rows, every returned record
is the serialization of such a row, and each surviving row carries exactly
the parameter's value in every provided filter column. -/
theorem fetch_data_result_subset_of_dataset (d : Dataset) (y : Option Int)
    (c m : Option String) (recs : List (List (String × Cell)))
    (hjson : fetch_data (Except.ok d) y c m = FetchOutcome.json recs) :
    (survivors d y c m).Sublist d.rows
    ∧ recs = (survivors d y c m).map (serializeRow d)
    ∧ ∀ r ∈ survivors d y c m, r ∈ d.rows
        ∧ (∀ yv, y = some yv → colCell d.cols r "year" = Cell.num yv)
        ∧ (∀ cv, c = some cv → colCell d.cols r "country" = Cell.str cv)
        ∧ (∀ mv, m = some mv → colCell d.cols r "mkt_name" = Cell.str mv) := by
  obtain ⟨hc, hne, hcne, hrecs⟩ := (fetch_data_json_iff d y c m recs).mp hjson
  refine ⟨List.filter_sublist d.rows, hrecs, ?_⟩
  intro r hr
  have hrd : r ∈ d.rows := List.mem_of_mem_filter hr
  have hmatch : rowMatches d.cols y c m r = true := List.of_mem_filter hr
  rw [rowMatches, Bool.and_eq_true, Bool.and_eq_true] at hmatch
  obtain ⟨⟨hy, hco⟩, hmk⟩ := hmatch
  refine ⟨hrd, fun yv hyv => ?_, fun cv hcv => ?_, fun mv hmv => ?_⟩
  · rw [hyv] at hy
    exact cellMatches_eq_num hy
  · rw [hcv] at hco
    exact cellMatches_eq_str hco
  · rw [hmv] at hmk
    exact cellMatches_eq_str hmk

theorem fetch_data_result_subset_of_dataset_witness :
    (survivors dsample (some 2020) (some "USA") (some "Retail")).Sublist
      dsample.rows :=
  (fetch_data_result_subset_of_dataset dsample (some 2020) (some "USA")
    (some "Retail")
    ((survivors dsample (some 2020) (some "USA") (some "Retail")).map
      (serializeRow dsample))
    (by decide)).1

/-- C9: `fetch_data` is total over its catch-all branch: it always returns
either serialized records or an error dictionary and never Python `None`;
consequently the endpoint's `is None` branch and its 400-status exception
branch are unreachable, and every response is delivered on the endpoint's
default success path. -/
theorem fetch_data_never_none_api_always_success_path
    (load : Except String Dataset) (y : Option Int) (c m : Option String) :
    fetch_data load y c m ≠ FetchOutcome.none
    ∧ fetch_data_api load y c m = ApiResponse.success (fetch_data load y c m)
    ∧ ∀ e, fetch_data_api load y c m ≠ ApiResponse.badRequest e := by
  refine ⟨fetch_data_ne_none load y c m, fetch_data_api_success load y c m,
    fun e h => ?_⟩
  rw [fetch_data_api_success] at h
  simp at h

theorem fetch_data_never_none_api_always_success_path_witness :
    fetch_data (Except.ok dsample) none none none ≠ FetchOutcome.none :=
  (fetch_data_never_none_api_always_success_path (Except.ok dsample)
    none none none).1

/-- C10: null replacement happens strictly after filtering: a filter
parameter equal to the empty string never matches a row whose cell in that
column is originally null — such a row is not among the survivors — even
though `fillna` later renders null cells as the empty string in the
returned records. -/
theorem fetch_data_empty_string_filter_ignores_null_cells (d : Dataset)
    (y : Option Int) (c m : Option String) (r : List Cell) :
    (colCell d.cols r "country" = Cell.null →
      rowMatches d.cols y (some "") m r = false
        ∧ r ∉ survivors d y (some "") m)
    ∧ (colCell d.cols r "mkt_name" = Cell.null →
      rowMatches d.cols y c (some "") r = false
        ∧ r ∉ survivors d y c (some ""))
    ∧ fillNullCell Cell.null = Cell.str "" := by
  refine ⟨fun h => ?_, fun h => ?_, rfl⟩
  · have hcp : countryPred d.cols (some "") r = false := by
      simp [countryPred, h, cellMatches]
    have hrm : rowMatches d.cols y (some "") m r = false := by
      simp [rowMatches, hcp]
    refine ⟨hrm, fun hmem => ?_⟩
    have := List.of_mem_filter hmem
    rw [hrm] at this
    exact Bool.false_ne_true this
  · have hmp : marketPred d.cols (some "") r = false := by
      simp [marketPred, h, cellMatches]
    have hrm : rowMatches d.cols y c (some "") r = false := by
      simp [rowMatches, hmp]
    refine ⟨hrm, fun hmem => ?_⟩
    have := List.of_mem_filter hmem
    rw [hrm] at this
    exact Bool.false_ne_true this

theorem fetch_data_empty_string_filter_ignores_null_cells_witness :
    rowMatches dnull.cols none (some "") none
        [Cell.num 2021, Cell.null, Cell.str "Retail", Cell.str "x"] = false
    ∧ [Cell.num 2021, Cell.null, Cell.str "Retail", Cell.str "x"] ∉
        survivors dnull none (some "") none :=
  (fetch_data_empty_string_filter_ignores_null_cells dnull none none none
    [Cell.num 2021, Cell.null, Cell.str "Retail", Cell.str "x"]).1 (by decide)
